import Mathlib

/-!
Verification of the ingest-job orchestrator of the f1-pro repository.

The definitions below are a shallow embedding of the final version of the
ingest route (`app/api/ingest/route.ts`, the last revision in the sources:
`POST`, `GET`, `resolvePythonExecutable`, the process lifecycle handlers)
and of the `ingest_jobs` relation from `001_init.sql`.

Side-effecting collaborators are modelled explicitly:
* the filesystem (`fs.existsSync`), the `PYTHON_EXECUTABLE` variable, the
  `spawnSync` probe, the resolved project root (`findProjectRoot`), the
  database URL (`getDatabaseUrl`) and the proxy variables are fields of
  `SysEnv`;
* the PostgreSQL store is a `Db` value: the `weekends`, `sessions` and
  `ingest_jobs` relations plus the `bigserial` counter;
* `path.join` / `path.isAbsolute` / `path.resolve` are modelled with POSIX
  separator semantics.
-/

namespace F1Ingest

/-- POSIX `path.join` of two segments. -/
def pathJoin (a b : String) : String := a ++ "/" ++ b

/-- POSIX `path.isAbsolute`: the path begins with the separator. -/
def pathIsAbsolute (p : String) : Bool :=
  match p.data with
  | [] => false
  | c :: _ => c == '/'

/-- POSIX `path.resolve(root, p)` restricted to the two-argument form used by
the route: an absolute `p` wins, otherwise `p` is joined onto `root`. -/
def pathResolve (root p : String) : String :=
  if pathIsAbsolute p then p else pathJoin root p

/-- Result of `spawnSync(candidate, ["--version"], {stdio: "pipe"})`: the
`error` field is set when the probe process could not be spawned, `status`
is its exit status (absent when killed by a signal or not spawned). -/
structure ProbeResult where
  error : Option String
  status : Option Int
deriving Repr, DecidableEq

/-- The ambient system environment read by the route. -/
structure SysEnv where
  /-- `process.platform === "win32"`. -/
  isWindows : Bool
  /-- `process.env.PYTHON_EXECUTABLE`. -/
  pythonExecutableVar : Option String
  /-- `fs.existsSync`. -/
  fsExists : String → Bool
  /-- `spawnSync(candidate, ["--version"])` as observed for each candidate. -/
  probe : String → ProbeResult
  /-- the directory returned by `findProjectRoot()` (a filesystem walk from
  `process.cwd()`; abstracted as an environment-provided value). -/
  projectRoot : String
  /-- the string returned by `getDatabaseUrl()` (a read of `process.env`
  and `.env.local`; abstracted as an environment-provided value). -/
  databaseUrl : String
  /-- the SQL `now()` timestamp, as an abstract clock value. -/
  now : Nat
  /-- `process.env.HTTP_PROXY`. -/
  httpProxy : Option String
  /-- `process.env.HTTPS_PROXY`. -/
  httpsProxy : Option String
  /-- `process.env.NO_PROXY`. -/
  noProxy : Option String

/-- The message of the error thrown when every resolver strategy fails. -/
def resolverFailureMessage : String :=
  "Could not find a Python executable. Create the virtualenv with \"python -m venv f1_venv\" (then install deps) or set PYTHON_EXECUTABLE to a valid interpreter."

/-- `path.join(projectRoot, "f1_venv", isWindows ? "Scripts" : "bin",
isWindows ? "python.exe" : "python")`. -/
def venvPythonPath (env : SysEnv) (projectRoot : String) : String :=
  pathJoin (pathJoin (pathJoin projectRoot "f1_venv")
      (if env.isWindows then "Scripts" else "bin"))
    (if env.isWindows then "python.exe" else "python")

/-- The system-wide interpreter candidate: `python` on Windows, `python3`
elsewhere. -/
def systemCandidate (env : SysEnv) : String :=
  if env.isWindows then "python" else "python3"

/-- Shallow embedding of `resolvePythonExecutable(projectRoot)`:
(1) the `PYTHON_EXECUTABLE` override when truthy and present on disk,
(2) the interpreter bundled in `f1_venv`,
(3) the system candidate when the `--version` probe spawned without error
(the code tests `!probe.error`, not the probe's exit status);
otherwise the actionable error is thrown (modelled as `Except.error`). -/
def resolvePythonExecutable (env : SysEnv) (projectRoot : String) :
    Except String String :=
  let fallback : Except String String :=
    let venvPython := venvPythonPath env projectRoot
    if env.fsExists venvPython then .ok venvPython
    else
      let cand := systemCandidate env
      if (env.probe cand).error = none then .ok cand
      else .error resolverFailureMessage
  match env.pythonExecutableVar with
  | some envPython =>
      if envPython ≠ "" then
        let envPath := pathResolve projectRoot envPython
        if env.fsExists envPath then .ok envPath else fallback
      else fallback
  | none => fallback

/-- Modelled from the spec: the Executable Resolver exactly as the claim
words it, for refinement comparison with `resolvePythonExecutable`. The
only difference is strategy (3): the spec reading accepts the system-wide
interpreter by "inspecting the exit status" of the version-check probe,
i.e. requires exit status 0. -/
def resolvePythonExecutableSpec (env : SysEnv) (projectRoot : String) :
    Except String String :=
  let fallback : Except String String :=
    let venvPython := venvPythonPath env projectRoot
    if env.fsExists venvPython then .ok venvPython
    else
      let cand := systemCandidate env
      if (env.probe cand).status = some 0 then .ok cand
      else .error resolverFailureMessage
  match env.pythonExecutableVar with
  | some envPython =>
      if envPython ≠ "" then
        let envPath := pathResolve projectRoot envPython
        if env.fsExists envPath then .ok envPath else fallback
      else fallback
  | none => fallback

/-- One row of the `ingest_jobs` relation, restricted to the columns this
subsystem reads or writes. -/
structure JobRow where
  id : Nat
  season : Int
  round : Int
  session_codes : String
  status : String
  error : Option String
  created_at : Nat
  started_at : Option Nat
  finished_at : Option Nat
deriving Repr, DecidableEq

/-- One row of the `weekends` relation (the columns used by the dedup
query). -/
structure Weekend where
  id : Nat
  season : Int
  round : Int
deriving Repr, DecidableEq

/-- One row of the `sessions` relation (the columns used by the dedup
query). -/
structure SessionRow where
  weekend_id : Nat
  session_code : String
deriving Repr, DecidableEq

/-- The PostgreSQL store: the three relations the subsystem touches plus
the `bigserial` counter behind `ingest_jobs.id`. -/
structure Db where
  weekends : List Weekend
  sessions : List SessionRow
  jobs : List JobRow
  nextJobId : Nat
deriving Repr, DecidableEq

/-- The dedup query: `SELECT s.session_code FROM sessions s JOIN weekends w
ON s.weekend_id = w.id WHERE w.season = $1 AND w.round = $2`. -/
def existingSessionCodes (db : Db) (season round : Int) : List String :=
  (db.sessions.filter (fun s =>
      (db.weekends.filter (fun w => w.season == season && w.round == round)).any
        (fun w => w.id == s.weekend_id))).map (fun s => s.session_code)

/-- The default session list used when the request's `sessions` field is
absent (JS `sessions || [...]`). -/
def defaultSessionCodes : List String := ["FP1", "FP2", "FP3", "Q", "R"]

/-- The Deduplication Checker step of the POST handler:
`sessionsToIngest.filter((s) => !existingSessions.includes(s))`. -/
def computeMissing (db : Db) (season round : Int)
    (requested : List String) : List String :=
  requested.filter
    (fun s => !(existingSessionCodes db season round).contains s)

/-- JS truthiness of the parsed `season` / `round` JSON numbers: absent,
null and 0 are falsy. -/
def jsTruthyInt : Option Int → Bool
  | none => false
  | some n => n != 0

/-- The parsed body of an ingestion request. `none` in `sessions` covers an
omitted, `null` or `undefined` field. -/
structure PostInput where
  season : Option Int
  round : Option Int
  sessions : Option (List String)
deriving Repr

/-- Effect of `UPDATE ingest_jobs SET status = 'FAILED', error = $1 WHERE
id = $2` on a single row: only `status` and `error` are written, and only
on the matching id. -/
def updRow (jobId : Nat) (msg : String) (j : JobRow) : JobRow :=
  if j.id == jobId then { j with status := "FAILED", error := some msg } else j

/-- Effect of the same `UPDATE` on the whole store. -/
def updateJobFailed (db : Db) (jobId : Nat) (msg : String) : Db :=
  { db with jobs := db.jobs.map (updRow jobId msg) }

/-- The spawn call issued for the worker: executable, script argument,
working directory and the environment variables the route sets. -/
structure SpawnCall where
  executable : String
  scriptArg : String
  cwd : String
  envJobId : String
  envSeason : String
  envRound : String
  envSessionCodes : String
  envDatabaseUrl : String
  envPythonPath : String
  envHttpProxy : String
  envHttpsProxy : String
  envNoProxy : String
deriving Repr, DecidableEq

/-- The four response shapes of the POST handler. -/
inductive PostResp where
  /-- 400 `{success: false, error}` for a missing season/round. -/
  | badRequest (msg : String)
  /-- 200 `{success: true, message, existingSessions}`: the short-circuit. -/
  | alreadyExists (msg : String) (existingSessions : List String)
  /-- 200 `{success: true, jobId, message, sessions}`. -/
  | started (jobId : Nat) (msg : String) (sessions : List String)
  /-- 500 `{success: false, error}` from the catch block. -/
  | serverError (msg : String)
deriving Repr, DecidableEq

/-- Whether a response is the `{jobId, ...}` shape. -/
def PostResp.isStarted : PostResp → Bool
  | .started _ _ _ => true
  | _ => false

/-- Outcome of one POST request: the store afterwards, the HTTP response,
and the spawn call when one was issued. -/
structure PostResult where
  db : Db
  resp : PostResp
  spawned : Option SpawnCall
deriving Repr

/-- The catch block of the POST handler: when a job row was already
created, mark it FAILED with the thrown message (`finished_at` is not
written), then answer 500 with that message. -/
def launchCatch (db : Db) (jobId? : Option Nat) (msg : String) : PostResult :=
  let db' := match jobId? with
    | some jid => updateJobFailed db jid msg
    | none => db
  ⟨db', .serverError msg, none⟩

/-- The row written by `INSERT INTO ingest_jobs (season, round,
session_codes, status, created_at) VALUES ($1, $2, $3, 'PENDING', now())`. -/
def freshJobRow (env : SysEnv) (db : Db) (season round : Int)
    (newSessions : List String) : JobRow :=
  { id := db.nextJobId
    season := season
    round := round
    session_codes := String.intercalate "," newSessions
    status := "PENDING"
    error := none
    created_at := env.now
    started_at := none
    finished_at := none }

/-- Shallow embedding of the POST handler (final revision), after
authentication and JSON parsing. -/
def POSTf (env : SysEnv) (db : Db) (inp : PostInput) : PostResult :=
  if !(jsTruthyInt inp.season && jsTruthyInt inp.round) then
    ⟨db, .badRequest "Season and round are required", none⟩
  else
    let season := inp.season.getD 0
    let round := inp.round.getD 0
    let existingSessions := existingSessionCodes db season round
    let sessionsToIngest := inp.sessions.getD defaultSessionCodes
    let newSessions := computeMissing db season round sessionsToIngest
    if newSessions.isEmpty then
      ⟨db, .alreadyExists "All requested sessions already exist" existingSessions,
        none⟩
    else
      let jobId := db.nextJobId
      let db1 : Db :=
        { db with
            jobs := db.jobs ++ [freshJobRow env db season round newSessions]
            nextJobId := db.nextJobId + 1 }
      if jobId == 0 then
        launchCatch db1 (some jobId) "Failed to create ingest job id"
      else
        let projectRoot := env.projectRoot
        let pythonPath := pathJoin projectRoot "python"
        match resolvePythonExecutable env projectRoot with
        | .error msg => launchCatch db1 (some jobId) msg
        | .ok pythonExecutable =>
            let ingestScript :=
              pathJoin (pathJoin pythonPath "ingest") "run_job.py"
            let databaseUrl := env.databaseUrl
            if databaseUrl = "" ∨ databaseUrl.length < 20 then
              launchCatch db1 (some jobId)
                "DATABASE_URL is not properly configured"
            else if !env.fsExists ingestScript then
              launchCatch db1 (some jobId)
                ("Ingest script not found at " ++ ingestScript)
            else
              ⟨db1,
                .started jobId
                  ("Started ingesting " ++ toString newSessions.length
                    ++ " sessions")
                  newSessions,
                some
                  { executable := pythonExecutable
                    scriptArg := ingestScript
                    cwd := pythonPath
                    envJobId := toString jobId
                    envSeason := toString season
                    envRound := toString round
                    envSessionCodes := String.intercalate "," newSessions
                    envDatabaseUrl := databaseUrl
                    envPythonPath := pythonPath
                    envHttpProxy := env.httpProxy.getD ""
                    envHttpsProxy := env.httpsProxy.getD ""
                    envNoProxy := env.noProxy.getD "" }⟩

/-- The `ingestProcess.on("error", ...)` handler: mark the job FAILED with
the spawn error message, with no check of the current status. -/
def spawnErrorHandler (db : Db) (jobId : Nat) (errMessage : String) : Db :=
  updateJobFailed db jobId ("Process spawn error: " ++ errMessage)

/-- JS string interpolation of the exit code (`null` when the child was
signal-killed). -/
def exitCodeText : Option Int → String
  | none => "null"
  | some n => toString n

/-- The diagnostic written by the exit handler: the exit code followed by
the captured stderr, or a fallback line when stderr is empty (falsy). -/
def exitHandlerMessage (code : Option Int) (stderr : String) : String :=
  "Process exited with code " ++ exitCodeText code ++ ". "
    ++ (if stderr = "" then "Check logs for details." else stderr)

/-- The `ingestProcess.on("exit", ...)` handler: on a non-zero exit code,
re-read the job's status and mark the job FAILED only when it is still
PENDING or RUNNING; on exit code 0 do nothing. -/
def exitHandler (db : Db) (jobId : Nat) (code : Option Int)
    (stderr : String) : Db :=
  if code ≠ some 0 then
    match (db.jobs.filter (fun j => j.id == jobId)).head? with
    | some j =>
        if j.status = "PENDING" ∨ j.status = "RUNNING" then
          updateJobFailed db jobId (exitHandlerMessage code stderr)
        else db
    | none => db
  else db

/-- The ordering of `ORDER BY created_at DESC`. -/
def createdDesc (a b : JobRow) : Prop := b.created_at ≤ a.created_at

instance : DecidableRel createdDesc :=
  fun a b => inferInstanceAs (Decidable (b.created_at ≤ a.created_at))

instance : IsTotal JobRow createdDesc :=
  ⟨fun a b => Nat.le_total b.created_at a.created_at⟩

instance : IsTrans JobRow createdDesc :=
  ⟨fun _ _ _ h1 h2 => le_trans h2 h1⟩

/-- `SELECT ... FROM ingest_jobs ORDER BY created_at DESC LIMIT 10`. -/
def recentJobs (db : Db) : List JobRow :=
  (db.jobs.insertionSort createdDesc).take 10

/-- The three response shapes of the GET handler. -/
inductive GetResp where
  /-- 200 `{success: true, jobs}`. -/
  | recent (jobs : List JobRow)
  /-- 200 `{success: true, job}`. -/
  | found (job : JobRow)
  /-- 404 `{success: false, error: "Job not found"}`. -/
  | notFound (msg : String)
deriving Repr, DecidableEq

/-- Shallow embedding of the GET handler: a missing or empty `jobId` query
parameter (both falsy) yields the recent list, otherwise the row with the
matching id is looked up and its absence yields the 404 result. -/
def GETf (db : Db) (jobIdParam : Option String) : GetResp :=
  let jobId := jobIdParam.getD ""
  if jobId = "" then .recent (recentJobs db)
  else
    match db.jobs.filter (fun j => toString j.id == jobId) with
    | [] => .notFound "Job not found"
    | j :: _ => .found j

/-- Columns of the `ingest_jobs` table as created by `001_init.sql`. -/
def ingestJobsColumns : List String :=
  ["id", "requested_by", "season", "round", "session_code", "session_codes",
   "status", "created_at", "started_at", "finished_at", "log_url", "error"]

/-- Columns named by the single-job status query of the GET handler. -/
def getJobSelectColumns : List String :=
  ["id", "season", "round", "session_codes", "status", "created_at",
   "started_at", "finished_at", "error", "progress"]

/-- The four status strings this subsystem stores or tests. -/
def statusValid (s : String) : Prop :=
  s = "PENDING" ∨ s = "RUNNING" ∨ s = "SUCCESS" ∨ s = "FAILED"

/-- The list `missing` holds exactly the requested codes that are absent
from `existing`, compared by exact string. -/
def isSetDifference (missing requested existing : List String) : Prop :=
  ∀ c, c ∈ missing ↔ c ∈ requested ∧ c ∉ existing

/-- Every spawn call issued by the request carries `s` in its
SESSION_CODES environment variable. -/
def spawnedSessionCodesAre (r : PostResult) (s : String) : Prop :=
  ∀ sc, r.spawned = some sc → sc.envSessionCodes = s

/-- Every row of the list carries one of the four known statuses. -/
def jobsStatusesValid (l : List JobRow) : Prop :=
  ∀ j ∈ l, statusValid j.status

/-- Every row of `new` that is not in `old` is stored as PENDING, or as
FAILED when the launch failed within the same request. -/
def newRowsPendingOrFailed (old new : List JobRow) : Prop :=
  ∀ j ∈ new, j ∉ old → j.status = "PENDING" ∨ j.status = "FAILED"

/-- Every row with the given id carries status FAILED. -/
def jobsWithIdFailed (l : List JobRow) (jid : Nat) : Prop :=
  ∀ x ∈ l, x.id = jid → x.status = "FAILED"

/-- All ids already present in the store are below the serial counter. -/
def Db.wf (db : Db) : Prop := ∀ j ∈ db.jobs, j.id < db.nextJobId

/-- A system environment in which every launch precondition holds: an
absolute `PYTHON_EXECUTABLE` that exists, a well-formed database URL, an
existing ingest script. -/
def happyEnv : SysEnv :=
  { isWindows := false
    pythonExecutableVar := some "/usr/bin/python3"
    fsExists := fun _ => true
    probe := fun _ => ⟨none, some 0⟩
    projectRoot := "/repo"
    databaseUrl := "postgresql://user:pw@host/db"
    now := 100
    httpProxy := none
    httpsProxy := none
    noProxy := none }

/-- A store holding the 2024 round 5 weekend with only the Q session
present and no jobs yet. -/
def sampleDb : Db :=
  { weekends := [⟨1, 2024, 5⟩]
    sessions := [⟨1, "Q"⟩]
    jobs := []
    nextJobId := 1 }

/-- An environment in which every resolver strategy fails: no override, an
empty filesystem, and a probe whose spawn itself errors. -/
def noPythonEnv : SysEnv :=
  { happyEnv with
      pythonExecutableVar := none
      fsExists := fun _ => false
      probe := fun _ => ⟨some "spawnSync python3 ENOENT", none⟩ }

/-- An environment with no override and no virtualenv whose probe spawns
without error but exits with status 2. -/
def probeExitsNonzeroEnv : SysEnv :=
  { happyEnv with
      pythonExecutableVar := none
      fsExists := fun _ => false
      probe := fun _ => ⟨none, some 2⟩ }

/-- A job row that has already reached SUCCESS. -/
def successRow : JobRow :=
  { id := 1, season := 2024, round := 5, session_codes := "R",
    status := "SUCCESS", error := none, created_at := 50,
    started_at := some 60, finished_at := some 70 }

/-- A store whose single job has already reached SUCCESS. -/
def successJobDb : Db :=
  { weekends := []
    sessions := []
    jobs := [successRow]
    nextJobId := 2 }

/-- A job row still in its initial PENDING state. -/
def pendingRow : JobRow :=
  { id := 1, season := 2024, round := 5, session_codes := "R",
    status := "PENDING", error := none, created_at := 50,
    started_at := none, finished_at := none }

/-- A store whose single job is still PENDING. -/
def pendingJobDb : Db :=
  { weekends := []
    sessions := []
    jobs := [pendingRow]
    nextJobId := 2 }

/-!  Helper lemmas. -/

theorem updRow_session_codes (jobId : Nat) (msg : String) (j : JobRow) :
    (updRow jobId msg j).session_codes = j.session_codes := by
  unfold updRow; split <;> rfl

theorem updRow_status (jobId : Nat) (msg : String) (j : JobRow) :
    (updRow jobId msg j).status
      = if j.id == jobId then "FAILED" else j.status := by
  unfold updRow; split <;> rfl

theorem updRow_finished_at (jobId : Nat) (msg : String) (j : JobRow) :
    (updRow jobId msg j).finished_at = j.finished_at := by
  unfold updRow; split <;> rfl

theorem updRow_started_at (jobId : Nat) (msg : String) (j : JobRow) :
    (updRow jobId msg j).started_at = j.started_at := by
  unfold updRow; split <;> rfl

theorem updRow_id (jobId : Nat) (msg : String) (j : JobRow) :
    (updRow jobId msg j).id = j.id := by
  unfold updRow; split <;> rfl

theorem updRow_of_ne (jobId : Nat) (msg : String) (j : JobRow)
    (h : j.id ≠ jobId) : updRow jobId msg j = j := by
  simp [updRow, h]

theorem map_updRow_of_forall_ne (jobId : Nat) (msg : String)
    (l : List JobRow) (h : ∀ j ∈ l, j.id ≠ jobId) :
    l.map (updRow jobId msg) = l := by
  induction l with
  | nil => rfl
  | cons a as ih =>
      simp only [List.map_cons]
      rw [updRow_of_ne _ _ _ (h a (List.mem_cons_self a as)),
        ih (fun j hj => h j (List.mem_cons_of_mem a hj))]

theorem append_ne_empty_of_left (s t : String) (h : s.length ≠ 0) :
    s ++ t ≠ "" := by
  intro he
  have hl : s.length + t.length = 0 := by
    have hc := congrArg String.length he
    simpa [String.length_append] using hc
  omega

theorem exitHandlerMessage_ne_empty (code : Option Int) (stderr : String) :
    exitHandlerMessage code stderr ≠ "" := by
  unfold exitHandlerMessage
  apply append_ne_empty_of_left
  rw [String.length_append, String.length_append]
  have h25 : "Process exited with code ".length = 25 := by decide
  omega

theorem mem_computeMissing (db : Db) (season round : Int)
    (requested : List String) (c : String) :
    c ∈ computeMissing db season round requested
      ↔ c ∈ requested ∧ c ∉ existingSessionCodes db season round := by
  simp [computeMissing]

theorem computeMissing_ne_nil (db : Db) (season round : Int)
    (requested : List String)
    (h : ∃ c ∈ requested, c ∉ existingSessionCodes db season round) :
    computeMissing db season round requested ≠ [] := by
  obtain ⟨c, hc, hnc⟩ := h
  intro h0
  have hmem : c ∈ computeMissing db season round requested :=
    (mem_computeMissing db season round requested c).mpr ⟨hc, hnc⟩
  rw [h0] at hmem
  exact absurd hmem (List.not_mem_nil c)

theorem computeMissing_eq_nil (db : Db) (season round : Int)
    (requested : List String)
    (h : ∀ c ∈ requested, c ∈ existingSessionCodes db season round) :
    computeMissing db season round requested = [] := by
  rw [computeMissing, List.filter_eq_nil_iff]
  intro c hc
  simp [h c hc]

theorem updRow_error (jobId : Nat) (msg : String) (j : JobRow) :
    (updRow jobId msg j).error
      = if j.id == jobId then some msg else j.error := by
  unfold updRow; split <;> rfl

theorem updRow_status_of_id (jobId : Nat) (msg : String) (j : JobRow)
    (h : j.id = jobId) : (updRow jobId msg j).status = "FAILED" := by
  simp [updRow, h]

theorem statusValid_updRow (jobId : Nat) (msg : String) (j : JobRow)
    (h : statusValid j.status) : statusValid (updRow jobId msg j).status := by
  rw [updRow_status]
  split
  · exact Or.inr (Or.inr (Or.inr rfl))
  · exact h

theorem statusValid_updateJobFailed (db : Db) (jobId : Nat) (msg : String)
    (h : ∀ j ∈ db.jobs, statusValid j.status) :
    ∀ j ∈ (updateJobFailed db jobId msg).jobs, statusValid j.status := by
  intro j hj
  rcases List.mem_map.mp hj with ⟨a, ha, rfl⟩
  exact statusValid_updRow _ _ _ (h a ha)

theorem exitHandler_cases (db : Db) (jobId : Nat) (code : Option Int)
    (stderr : String) :
    exitHandler db jobId code stderr = db
    ∨ ∃ m, exitHandler db jobId code stderr = updateJobFailed db jobId m := by
  unfold exitHandler
  split
  · split
    · split
      · exact Or.inr ⟨_, rfl⟩
      · exact Or.inl rfl
    · exact Or.inl rfl
  · exact Or.inl rfl

theorem launchCatch_jobs_shape (env : SysEnv) (db : Db) (season round : Int)
    (miss : List String) (msg : String) (hwf : db.wf) :
    (launchCatch
        { db with
            jobs := db.jobs ++ [freshJobRow env db season round miss]
            nextJobId := db.nextJobId + 1 }
        (some db.nextJobId) msg).db.jobs
      = db.jobs
          ++ [updRow db.nextJobId msg (freshJobRow env db season round miss)] := by
  simp only [launchCatch, updateJobFailed, List.map_append, List.map_cons,
    List.map_nil]
  rw [map_updRow_of_forall_ne _ _ _ (fun j hj => Nat.ne_of_lt (hwf j hj))]

theorem POSTf_jobs_cases (env : SysEnv) (db : Db) (inp : PostInput) :
    (POSTf env db inp).db.jobs = db.jobs
    ∨ (∃ season round newSessions,
        (POSTf env db inp).db.jobs
          = db.jobs ++ [freshJobRow env db season round newSessions])
    ∨ (∃ season round newSessions msg,
        (POSTf env db inp).db.jobs
          = (db.jobs ++ [freshJobRow env db season round newSessions]).map
              (updRow db.nextJobId msg)) := by
  simp only [POSTf]
  split
  · exact Or.inl rfl
  · split
    · exact Or.inl rfl
    · split
      · exact Or.inr (Or.inr ⟨_, _, _, _, rfl⟩)
      · split
        · exact Or.inr (Or.inr ⟨_, _, _, _, rfl⟩)
        · split
          · exact Or.inr (Or.inr ⟨_, _, _, _, rfl⟩)
          · split
            · exact Or.inr (Or.inr ⟨_, _, _, _, rfl⟩)
            · exact Or.inr (Or.inl ⟨_, _, _, rfl⟩)

/-!  Claim theorems. -/

/-- C1: for every ingestion request with valid season and round and at
least one requested code missing from storage, the POST handler appends
exactly one IngestJob row, its stored `session_codes` is the comma-join of
the requested-minus-existing set difference (compared by exact code
string), and any spawn call issued carries that same comma-joined set in
its SESSION_CODES environment variable. -/
theorem postCreatesExactlyMissingJob (env : SysEnv) (db : Db)
    (season round : Int) (codes : List String)
    (hwf : db.wf) (hs : season ≠ 0) (hr : round ≠ 0)
    (hmiss : ∃ c ∈ codes, c ∉ existingSessionCodes db season round) :
    ∃ row,
      (POSTf env db ⟨some season, some round, some codes⟩).db.jobs
          = db.jobs ++ [row]
      ∧ row.session_codes
          = String.intercalate "," (computeMissing db season round codes)
      ∧ isSetDifference (computeMissing db season round codes) codes
          (existingSessionCodes db season round)
      ∧ spawnedSessionCodesAre
          (POSTf env db ⟨some season, some round, some codes⟩)
          (String.intercalate "," (computeMissing db season round codes)) := by
  have h1 : (jsTruthyInt (some season)) = true := by simp [jsTruthyInt, hs]
  have h2 : (jsTruthyInt (some round)) = true := by simp [jsTruthyInt, hr]
  have hie : (computeMissing db season round codes).isEmpty = false := by
    rw [List.isEmpty_eq_false]
    exact computeMissing_ne_nil db season round codes hmiss
  have hcatch : ∀ msg : String,
      ∃ row,
        (launchCatch
            { db with
                jobs := db.jobs
                  ++ [freshJobRow env db season round
                        (computeMissing db season round codes)]
                nextJobId := db.nextJobId + 1 }
            (some db.nextJobId) msg).db.jobs = db.jobs ++ [row]
        ∧ row.session_codes
            = String.intercalate "," (computeMissing db season round codes)
        ∧ isSetDifference (computeMissing db season round codes) codes
            (existingSessionCodes db season round)
        ∧ spawnedSessionCodesAre
            (launchCatch
                { db with
                    jobs := db.jobs
                      ++ [freshJobRow env db season round
                            (computeMissing db season round codes)]
                    nextJobId := db.nextJobId + 1 }
                (some db.nextJobId) msg)
            (String.intercalate "," (computeMissing db season round codes)) := by
    intro msg
    refine ⟨_, launchCatch_jobs_shape env db season round _ msg hwf, ?_, ?_, ?_⟩
    · rw [updRow_session_codes]; rfl
    · exact fun c => mem_computeMissing db season round codes c
    · intro sc hsc
      simp [launchCatch] at hsc
  simp only [POSTf, h1, h2, Bool.and_self, Bool.not_true, Bool.false_eq_true,
    if_false, Option.getD_some, hie, ite_false]
  split
  · exact hcatch _
  · split
    · exact hcatch _
    · split
      · exact hcatch _
      · split
        · exact hcatch _
        · refine ⟨freshJobRow env db season round
              (computeMissing db season round codes), rfl, rfl,
              (fun c => mem_computeMissing db season round codes c), ?_⟩
          intro sc hsc
          cases hsc
          rfl

/-- Witness for C1: request (2024, 5, ["Q", "R"]) against a store that
already has "Q"; the missing set is ["R"]. -/
theorem postCreatesExactlyMissingJob_witness :
    ∃ row,
      (POSTf happyEnv sampleDb ⟨some 2024, some 5, some ["Q", "R"]⟩).db.jobs
          = sampleDb.jobs ++ [row]
      ∧ row.session_codes
          = String.intercalate "," (computeMissing sampleDb 2024 5 ["Q", "R"])
      ∧ isSetDifference (computeMissing sampleDb 2024 5 ["Q", "R"])
          ["Q", "R"] (existingSessionCodes sampleDb 2024 5)
      ∧ spawnedSessionCodesAre
          (POSTf happyEnv sampleDb ⟨some 2024, some 5, some ["Q", "R"]⟩)
          (String.intercalate ","
            (computeMissing sampleDb 2024 5 ["Q", "R"])) :=
  postCreatesExactlyMissingJob happyEnv sampleDb 2024 5 ["Q", "R"]
    (fun j hj => absurd hj (by simp [sampleDb]))
    (by decide) (by decide) ⟨"R", by decide, by decide⟩

/-- C2: when every requested code already exists for the weekend, the POST
handler leaves the store untouched, spawns nothing and answers with the
distinct already-exists shape carrying the existing codes, not a jobId
response. -/
theorem postShortCircuitWhenAllExist (env : SysEnv) (db : Db)
    (season round : Int) (codes : List String)
    (hs : season ≠ 0) (hr : round ≠ 0)
    (hall : ∀ c ∈ codes, c ∈ existingSessionCodes db season round) :
    POSTf env db ⟨some season, some round, some codes⟩
      = ⟨db, .alreadyExists "All requested sessions already exist"
              (existingSessionCodes db season round), none⟩ := by
  have h1 : (jsTruthyInt (some season)) = true := by simp [jsTruthyInt, hs]
  have h2 : (jsTruthyInt (some round)) = true := by simp [jsTruthyInt, hr]
  have hie : (computeMissing db season round codes).isEmpty = true := by
    rw [List.isEmpty_iff]
    exact computeMissing_eq_nil db season round codes hall
  simp only [POSTf, h1, h2, Bool.and_self, Bool.not_true, Bool.false_eq_true,
    if_false, Option.getD_some, hie, ite_true]

/-- Witness for C2: request (2024, 5, ["Q"]) against a store that already
has "Q". -/
theorem postShortCircuitWhenAllExist_witness :
    POSTf happyEnv sampleDb ⟨some 2024, some 5, some ["Q"]⟩
      = ⟨sampleDb, .alreadyExists "All requested sessions already exist"
              (existingSessionCodes sampleDb 2024 5), none⟩ :=
  postShortCircuitWhenAllExist happyEnv sampleDb 2024 5 ["Q"]
    (by decide) (by decide) (by decide)

/-- Counterexample to C3 as stated: with no resolvable Python executable,
the created job is marked FAILED with the resolution error, but
`finished_at` stays unset and the caller gets the 500 error response, not
a jobId response. -/
theorem resolverFailureResponse_cex :
    (POSTf noPythonEnv sampleDb ⟨some 2024, some 5, some ["R"]⟩).resp.isStarted
        = false
    ∧ (POSTf noPythonEnv sampleDb ⟨some 2024, some 5, some ["R"]⟩).resp
        = .serverError resolverFailureMessage
    ∧ (POSTf noPythonEnv sampleDb ⟨some 2024, some 5, some ["R"]⟩).db.jobs.map
          (fun j => (j.status, j.error, j.finished_at))
        = [("FAILED", some resolverFailureMessage, none)] :=
  ⟨rfl, rfl, rfl⟩

/-- C3 amended: if the Executable Resolver fails after the IngestJob row
was created, the job is immediately marked FAILED with the resolution
error as its `error` (its `finished_at` is not written), this happens
before any spawn attempt, and the caller receives the 500 error response
carrying the same message rather than a jobId. -/
theorem resolverFailureMarksJobFailed (env : SysEnv) (db : Db)
    (season round : Int) (codes : List String) (msg : String)
    (hwf : db.wf) (hnz : db.nextJobId ≠ 0)
    (hs : season ≠ 0) (hr : round ≠ 0)
    (hmiss : ∃ c ∈ codes, c ∉ existingSessionCodes db season round)
    (hres : resolvePythonExecutable env env.projectRoot = .error msg) :
    ∃ row,
      (POSTf env db ⟨some season, some round, some codes⟩).db.jobs
          = db.jobs ++ [row]
      ∧ row.status = "FAILED"
      ∧ row.error = some msg
      ∧ row.finished_at = none
      ∧ (POSTf env db ⟨some season, some round, some codes⟩).spawned = none
      ∧ (POSTf env db ⟨some season, some round, some codes⟩).resp
          = .serverError msg := by
  have h1 : (jsTruthyInt (some season)) = true := by simp [jsTruthyInt, hs]
  have h2 : (jsTruthyInt (some round)) = true := by simp [jsTruthyInt, hr]
  have hie : (computeMissing db season round codes).isEmpty = false := by
    rw [List.isEmpty_eq_false]
    exact computeMissing_ne_nil db season round codes hmiss
  have hz : (db.nextJobId == 0) = false := by simp [hnz]
  simp only [POSTf, h1, h2, Bool.and_self, Bool.not_true, Bool.false_eq_true,
    if_false, Option.getD_some, hie, ite_false, hz, hres]
  refine ⟨updRow db.nextJobId msg
      (freshJobRow env db season round (computeMissing db season round codes)),
    launchCatch_jobs_shape env db season round _ msg hwf, ?_, ?_, ?_, rfl, rfl⟩
  · exact updRow_status_of_id _ _ _ rfl
  · rw [updRow_error]
    simp [freshJobRow]
  · rw [updRow_finished_at]; rfl

/-- Witness for C3 amended: the resolver fails in `noPythonEnv`; the job
row is FAILED with the actionable message and no spawn happens. -/
theorem resolverFailureMarksJobFailed_witness :
    ∃ row,
      (POSTf noPythonEnv sampleDb ⟨some 2024, some 5, some ["R"]⟩).db.jobs
          = sampleDb.jobs ++ [row]
      ∧ row.status = "FAILED"
      ∧ row.error = some resolverFailureMessage
      ∧ row.finished_at = none
      ∧ (POSTf noPythonEnv sampleDb ⟨some 2024, some 5, some ["R"]⟩).spawned
          = none
      ∧ (POSTf noPythonEnv sampleDb ⟨some 2024, some 5, some ["R"]⟩).resp
          = .serverError resolverFailureMessage :=
  resolverFailureMarksJobFailed noPythonEnv sampleDb 2024 5 ["R"]
    resolverFailureMessage
    (fun j hj => absurd hj (by simp [sampleDb]))
    (by decide) (by decide) (by decide) ⟨"R", by decide, by decide⟩ rfl

/-- C4: the exit handler marks the job FAILED with a non-empty message
built from the captured stderr exactly when the exit code is non-zero and
the status read back is still non-terminal (PENDING or RUNNING); on exit
code zero it performs no update at all, in particular it never marks the
job SUCCESS. -/
theorem exitHandlerFailsExactlyNonZeroNonTerminal (db : Db) (jobId : Nat)
    (code : Int) (stderr : String) (j : JobRow)
    (hj : (db.jobs.filter (fun x => x.id == jobId)).head? = some j)
    (hdom : statusValid j.status) :
    exitHandler db jobId (some 0) stderr = db
    ∧ (code ≠ 0 → ¬ (j.status = "SUCCESS" ∨ j.status = "FAILED") →
        exitHandler db jobId (some code) stderr
            = updateJobFailed db jobId (exitHandlerMessage (some code) stderr)
        ∧ exitHandlerMessage (some code) stderr ≠ "")
    ∧ (code ≠ 0 → (j.status = "SUCCESS" ∨ j.status = "FAILED") →
        exitHandler db jobId (some code) stderr = db) := by
  refine ⟨?_, ?_, ?_⟩
  · simp [exitHandler]
  · intro hc hnterm
    have hne : (some code : Option Int) ≠ some 0 := by
      simp [hc]
    have hnt : j.status = "PENDING" ∨ j.status = "RUNNING" := by
      rcases hdom with h | h | h | h
      · exact Or.inl h
      · exact Or.inr h
      · exact absurd (Or.inl h) hnterm
      · exact absurd (Or.inr h) hnterm
    rw [exitHandler, if_pos hne, hj]
    dsimp only
    rw [if_pos hnt]
    exact ⟨rfl, exitHandlerMessage_ne_empty _ _⟩
  · intro hc hterm
    have hne : (some code : Option Int) ≠ some 0 := by
      simp [hc]
    have hnt : ¬ (j.status = "PENDING" ∨ j.status = "RUNNING") := by
      rcases hterm with h | h <;> rw [h] <;> simp
    rw [exitHandler, if_pos hne, hj]
    dsimp only
    rw [if_neg hnt]

/-- Witness for C4: a PENDING job is failed on exit code 3 with the
non-empty stderr message, is untouched on exit code 0, and a SUCCESS job
is untouched even on exit code 3. -/
theorem exitHandlerFailsExactlyNonZeroNonTerminal_witness :
    exitHandler pendingJobDb 1 (some 0) "boom" = pendingJobDb
    ∧ exitHandler pendingJobDb 1 (some 3) "boom"
        = updateJobFailed pendingJobDb 1 (exitHandlerMessage (some 3) "boom")
    ∧ exitHandlerMessage (some 3) "boom" ≠ ""
    ∧ exitHandler successJobDb 1 (some 3) "err" = successJobDb :=
  ⟨(exitHandlerFailsExactlyNonZeroNonTerminal pendingJobDb 1 3 "boom"
      pendingRow rfl (Or.inl rfl)).1,
    ((exitHandlerFailsExactlyNonZeroNonTerminal pendingJobDb 1 3 "boom"
      pendingRow rfl (Or.inl rfl)).2.1 (by decide) (by decide)).1,
    ((exitHandlerFailsExactlyNonZeroNonTerminal pendingJobDb 1 3 "boom"
      pendingRow rfl (Or.inl rfl)).2.1 (by decide) (by decide)).2,
    (exitHandlerFailsExactlyNonZeroNonTerminal successJobDb 1 3 "err"
      successRow rfl (Or.inr (Or.inr (Or.inl rfl)))).2.2 (by decide)
      (Or.inl rfl)⟩

/-- Counterexample to C5 as stated: a run in which the spawn call succeeds
yet the job stays PENDING with `started_at` unset — the launcher performs
no RUNNING transition. -/
theorem spawnSuccessNoRunningTransition_cex :
    (POSTf happyEnv sampleDb ⟨some 2024, some 5, some ["R"]⟩).spawned.isSome
        = true
    ∧ (POSTf happyEnv sampleDb ⟨some 2024, some 5, some ["R"]⟩).db.jobs.map
          (fun j => (j.status, j.started_at))
        = [("PENDING", none)]
    ∧ ("PENDING" : String) ≠ "RUNNING" :=
  ⟨rfl, rfl, by decide⟩

/-- C5 amended: when the spawn call succeeds the launcher performs no
status update at all: the job keeps status PENDING with `started_at`
unset, while the jobId response is returned without waiting for the child
(the RUNNING transition is left to the worker process). -/
theorem spawnSuccessLeavesPending (env : SysEnv) (db : Db)
    (season round : Int) (codes : List String) (py : String)
    (hnz : db.nextJobId ≠ 0) (hs : season ≠ 0) (hr : round ≠ 0)
    (hmiss : ∃ c ∈ codes, c ∉ existingSessionCodes db season round)
    (hres : resolvePythonExecutable env env.projectRoot = .ok py)
    (hurl : ¬ (env.databaseUrl = "" ∨ env.databaseUrl.length < 20))
    (hscript : env.fsExists
        (pathJoin (pathJoin (pathJoin env.projectRoot "python") "ingest")
          "run_job.py") = true) :
    ∃ row,
      (POSTf env db ⟨some season, some round, some codes⟩).db.jobs
          = db.jobs ++ [row]
      ∧ row.status = "PENDING"
      ∧ row.started_at = none
      ∧ (POSTf env db ⟨some season, some round, some codes⟩).spawned.isSome
          = true
      ∧ (POSTf env db ⟨some season, some round, some codes⟩).resp
          = .started db.nextJobId
              ("Started ingesting "
                ++ toString (computeMissing db season round codes).length
                ++ " sessions")
              (computeMissing db season round codes) := by
  have h1 : (jsTruthyInt (some season)) = true := by simp [jsTruthyInt, hs]
  have h2 : (jsTruthyInt (some round)) = true := by simp [jsTruthyInt, hr]
  have hie : (computeMissing db season round codes).isEmpty = false := by
    rw [List.isEmpty_eq_false]
    exact computeMissing_ne_nil db season round codes hmiss
  have hz : (db.nextJobId == 0) = false := by simp [hnz]
  simp only [POSTf, h1, h2, Bool.and_self, Bool.not_true, Bool.false_eq_true,
    if_false, Option.getD_some, hie, ite_false, hz, hres, hscript,
    Bool.not_true]
  rw [if_neg hurl]
  exact ⟨freshJobRow env db season round (computeMissing db season round codes),
    rfl, rfl, rfl, rfl, rfl⟩

/-- Witness for C5 amended: a fully healthy environment spawns the worker
yet leaves the job PENDING. -/
theorem spawnSuccessLeavesPending_witness :
    ∃ row,
      (POSTf happyEnv sampleDb ⟨some 2024, some 5, some ["R"]⟩).db.jobs
          = sampleDb.jobs ++ [row]
      ∧ row.status = "PENDING"
      ∧ row.started_at = none
      ∧ (POSTf happyEnv sampleDb ⟨some 2024, some 5, some ["R"]⟩).spawned.isSome
          = true
      ∧ (POSTf happyEnv sampleDb ⟨some 2024, some 5, some ["R"]⟩).resp
          = .started sampleDb.nextJobId
              ("Started ingesting "
                ++ toString (computeMissing sampleDb 2024 5 ["R"]).length
                ++ " sessions")
              (computeMissing sampleDb 2024 5 ["R"]) :=
  spawnSuccessLeavesPending happyEnv sampleDb 2024 5 ["R"] "/usr/bin/python3"
    (by decide) (by decide) (by decide) ⟨"R", by decide, by decide⟩ rfl
    (by decide) rfl

/-- Counterexample to C6 as stated: the launch path inserts the job with
status PENDING, not QUEUED (the schema default QUEUED is overridden by the
explicit insert). -/
theorem insertedStatusIsPendingNotQueued_cex :
    (POSTf happyEnv sampleDb ⟨some 2024, some 5, some ["R"]⟩).db.jobs.map
        (fun j => j.status) = ["PENDING"]
    ∧ ("PENDING" : String) ≠ "QUEUED" :=
  ⟨rfl, by decide⟩

/-- C6 amended: rows created by the launch path are inserted with status
PENDING (updated to FAILED only when the same request's launch fails), and
every status this subsystem stores stays in the set
PENDING, RUNNING, SUCCESS, FAILED. -/
theorem statusesStayInDomain (env : SysEnv) (db : Db) (inp : PostInput)
    (jid : Nat) (c : Option Int) (em se : String)
    (hvalid : jobsStatusesValid db.jobs) :
    jobsStatusesValid (POSTf env db inp).db.jobs
    ∧ jobsStatusesValid (spawnErrorHandler db jid em).jobs
    ∧ jobsStatusesValid (exitHandler db jid c se).jobs
    ∧ newRowsPendingOrFailed db.jobs (POSTf env db inp).db.jobs := by
  have hfreshv : ∀ s r ns, statusValid (freshJobRow env db s r ns).status :=
    fun s r ns => Or.inl rfl
  refine ⟨?_, ?_, ?_, ?_⟩
  · rcases POSTf_jobs_cases env db inp with h | ⟨s, r, ns, h⟩ | ⟨s, r, ns, m, h⟩
    · rw [h]; exact hvalid
    · rw [h]
      intro j hj
      rcases List.mem_append.mp hj with hj1 | hj2
      · exact hvalid j hj1
      · rcases List.mem_singleton.mp hj2 with rfl
        exact hfreshv s r ns
    · rw [h]
      intro j hj
      rcases List.mem_map.mp hj with ⟨a, ha, rfl⟩
      refine statusValid_updRow _ _ _ ?_
      rcases List.mem_append.mp ha with ha1 | ha2
      · exact hvalid a ha1
      · rcases List.mem_singleton.mp ha2 with rfl
        exact hfreshv s r ns
  · exact statusValid_updateJobFailed db jid _ hvalid
  · rcases exitHandler_cases db jid c se with h | ⟨m, h⟩
    · rw [h]; exact hvalid
    · rw [h]; exact statusValid_updateJobFailed db jid _ hvalid
  · rcases POSTf_jobs_cases env db inp with h | ⟨s, r, ns, h⟩ | ⟨s, r, ns, m, h⟩
    · rw [h]
      intro j hj hnj
      exact absurd hj hnj
    · rw [h]
      intro j hj hnj
      rcases List.mem_append.mp hj with hj1 | hj2
      · exact absurd hj1 hnj
      · rcases List.mem_singleton.mp hj2 with rfl
        exact Or.inl rfl
    · rw [h]
      intro j hj hnj
      rcases List.mem_map.mp hj with ⟨a, ha, rfl⟩
      by_cases hid : a.id = db.nextJobId
      · exact Or.inr (updRow_status_of_id _ _ _ hid)
      · rw [updRow_of_ne _ _ _ hid] at hnj ⊢
        rcases List.mem_append.mp ha with ha1 | ha2
        · exact absurd ha1 hnj
        · rcases List.mem_singleton.mp ha2 with rfl
          exact Or.inl rfl

/-- Witness for C6 amended at a concrete request and concrete handler
invocations on the sample store. -/
theorem statusesStayInDomain_witness :
    jobsStatusesValid
        (POSTf happyEnv sampleDb ⟨some 2024, some 5, some ["R"]⟩).db.jobs
    ∧ jobsStatusesValid (spawnErrorHandler sampleDb 1 "boom").jobs
    ∧ jobsStatusesValid (exitHandler sampleDb 1 (some 3) "err").jobs
    ∧ newRowsPendingOrFailed sampleDb.jobs
        (POSTf happyEnv sampleDb ⟨some 2024, some 5, some ["R"]⟩).db.jobs :=
  statusesStayInDomain happyEnv sampleDb ⟨some 2024, some 5, some ["R"]⟩ 1
    (some 3) "boom" "err" (fun j hj => absurd hj (by simp [sampleDb]))

/-- Counterexample to C7 as stated: the spawn-error handler updates the
job unconditionally, so it transitions a job that already reached SUCCESS
to FAILED. -/
theorem spawnErrorOverridesSuccess_cex :
    (spawnErrorHandler successJobDb 1 "boom").jobs.map (fun j => j.status)
        = ["FAILED"]
    ∧ ("FAILED" : String) ≠ "SUCCESS" :=
  ⟨rfl, by decide⟩

/-- C7 amended: once a job is terminal the exit handler performs no
further transition, but the spawn-error handler and the launch error path
write FAILED unconditionally: they keep a FAILED job FAILED yet would
overwrite a SUCCESS status. -/
theorem terminalGuardAsymmetry (db : Db) (jid : Nat) (c : Option Int)
    (se m cm : String) (j : JobRow)
    (hj : (db.jobs.filter (fun x => x.id == jid)).head? = some j)
    (hterm : j.status = "SUCCESS" ∨ j.status = "FAILED") :
    exitHandler db jid c se = db
    ∧ jobsWithIdFailed (spawnErrorHandler db jid m).jobs jid
    ∧ jobsWithIdFailed (launchCatch db (some jid) cm).db.jobs jid := by
  refine ⟨?_, ?_, ?_⟩
  · by_cases hc : c = some 0
    · rw [exitHandler, if_neg (by simp [hc])]
    · have hnt : ¬ (j.status = "PENDING" ∨ j.status = "RUNNING") := by
        rcases hterm with h | h <;> rw [h] <;> simp
      rw [exitHandler, if_pos hc, hj]
      dsimp only
      rw [if_neg hnt]
  · intro x hx hxid
    rcases List.mem_map.mp hx with ⟨a, ha, rfl⟩
    rw [updRow_id] at hxid
    exact updRow_status_of_id _ _ _ hxid
  · intro x hx hxid
    rcases List.mem_map.mp hx with ⟨a, ha, rfl⟩
    rw [updRow_id] at hxid
    exact updRow_status_of_id _ _ _ hxid

/-- Witness for C7 amended at the store whose single job is SUCCESS. -/
theorem terminalGuardAsymmetry_witness :
    exitHandler successJobDb 1 (some 3) "err" = successJobDb
    ∧ jobsWithIdFailed (spawnErrorHandler successJobDb 1 "boom").jobs 1
    ∧ jobsWithIdFailed (launchCatch successJobDb (some 1) "cm").db.jobs 1 :=
  terminalGuardAsymmetry successJobDb 1 (some 3) "err" "boom" "cm"
    successRow rfl (Or.inl rfl)

/-- Counterexample to C8 as stated: with no override and no virtualenv,
when the version probe spawns fine but exits with status 2, the code still
accepts the system interpreter, while the claimed exit-status inspection
would reject it; the two strategies disagree. -/
theorem resolverIgnoresProbeExitStatus_cex :
    resolvePythonExecutable probeExitsNonzeroEnv "/repo" = .ok "python3"
    ∧ resolvePythonExecutableSpec probeExitsNonzeroEnv "/repo"
        = .error resolverFailureMessage
    ∧ resolvePythonExecutable probeExitsNonzeroEnv "/repo"
        ≠ resolvePythonExecutableSpec probeExitsNonzeroEnv "/repo" :=
  ⟨rfl, rfl, fun h => Except.noConfusion h⟩

/-- C8 amended: the resolver tries override, virtualenv, then the system
probe in this exact order and the first success wins, with the actionable
error when all fail; strategy (3) however accepts the candidate when the
probe invocation itself does not error, without inspecting the exit
status, so it coincides with the spec reading exactly for environments
where probe spawn-success is equivalent to exit status 0. -/
theorem resolverOrderedStrategies (env : SysEnv) (root : String)
    (hprobe : ∀ s, (env.probe s).error = none
        ↔ (env.probe s).status = some 0) :
    resolvePythonExecutable env root = resolvePythonExecutableSpec env root := by
  have hfb :
      (if (env.probe (systemCandidate env)).error = none then
          Except.ok (α := String) (systemCandidate env)
        else Except.error resolverFailureMessage)
        = (if (env.probe (systemCandidate env)).status = some 0 then
            Except.ok (systemCandidate env)
          else Except.error resolverFailureMessage) := by
    by_cases he : (env.probe (systemCandidate env)).error = none
    · rw [if_pos he, if_pos ((hprobe _).mp he)]
    · rw [if_neg he, if_neg (fun hs0 => he ((hprobe _).mpr hs0))]
  simp only [resolvePythonExecutable, resolvePythonExecutableSpec]
  cases henv : env.pythonExecutableVar with
  | none =>
      by_cases hv : env.fsExists (venvPythonPath env root)
      · simp [hv]
      · simp only [hv, Bool.false_eq_true, if_false]
        rw [hfb]
  | some s =>
      by_cases h0 : s ≠ ""
      · by_cases hfs : env.fsExists (pathResolve root s)
        · simp [h0, hfs]
        · by_cases hv : env.fsExists (venvPythonPath env root)
          · simp [h0, hfs, hv]
          · simp only [hfs, hv, Bool.false_eq_true, if_false]
            rw [hfb]
      · by_cases hv : env.fsExists (venvPythonPath env root)
        · simp [h0, hv]
        · simp only [hv, Bool.false_eq_true, if_false]
          rw [hfb]

/-- Witness for C8 amended: in `happyEnv` the probe reports no error and
exit status 0, so the code resolver and the spec-worded resolver agree. -/
theorem resolverOrderedStrategies_witness :
    resolvePythonExecutable happyEnv "/repo"
      = resolvePythonExecutableSpec happyEnv "/repo" :=
  resolverOrderedStrategies happyEnv "/repo"
    (fun _ => ⟨fun _ => rfl, fun _ => rfl⟩)

/-- C9: the single-job status query of the GET handler names a `progress`
column that `001_init.sql` never creates, so against the repository's own
schema the query errors and the handler answers 500 instead of ever
reaching its not-found branch; the handler's own lookup logic, embedded
here, does return the distinct not-found result for an unknown jobId. -/
theorem getUnknownJobColumnMismatch :
    ("progress" ∈ getJobSelectColumns ∧ "progress" ∉ ingestJobsColumns)
    ∧ GETf sampleDb (some "999") = .notFound "Job not found" :=
  ⟨⟨by decide, by decide⟩, rfl⟩

/-- C10: a request whose `sessions` field is absent (omitted, null or
undefined all parse to `none`) behaves exactly like a request for
["FP1", "FP2", "FP3", "Q", "R"], through deduplication and job
creation alike. -/
theorem postDefaultSessions (env : SysEnv) (db : Db)
    (season round : Option Int) :
    POSTf env db ⟨season, round, none⟩
      = POSTf env db ⟨season, round, some ["FP1", "FP2", "FP3", "Q", "R"]⟩ :=
  rfl

end F1Ingest
